import Mathlib

/-!
Shallow embedding of the nac-service-media audio template matching scripts
(`src/scripts/detect_amen.py` and `src/scripts/create_amen_template.py`).

Python strings are modelled as lists of characters, Python floats as real
numbers (exact arithmetic), numpy arrays as functions out of `Fin`.
`Except` models a Python call: `Except.error` is an exception escaping the
call, `Except.ok` a returned value.
-/

namespace NacMedia

/-- Python strings, modelled as lists of characters. -/
abbrev PyStr := List Char

/-- The character for one decimal digit (used to model Python's decimal
formatting of integers). -/
def digitToChar : ℕ → Char
  | 0 => '0'
  | 1 => '1'
  | 2 => '2'
  | 3 => '3'
  | 4 => '4'
  | 5 => '5'
  | 6 => '6'
  | 7 => '7'
  | 8 => '8'
  | 9 => '9'
  | _ => '*'

/-- The numeric value of a decimal digit character, `none` for other
characters (used to model Python's `int(...)` parsing). -/
def digitVal? (c : Char) : Option ℕ :=
  if '0' ≤ c ∧ c ≤ '9' then some (c.toNat - '0'.toNat) else none

/-- Accumulator loop for parsing a run of decimal digits. -/
def parseDigitsAux : ℕ → PyStr → Option ℕ
  | acc, [] => some acc
  | acc, c :: rest =>
    match digitVal? c with
    | some d => parseDigitsAux (10 * acc + d) rest
    | none => none

/-- Parse a nonempty all-digit string to a natural number, as Python's
`int(...)` does on such strings. -/
def parseDigits (s : PyStr) : Option ℕ :=
  if s = [] then none else parseDigitsAux 0 s

/-- Python's `int(str)` on a decimal literal with an optional sign:
`none` models the `ValueError` raised on malformed input. -/
def pyInt (s : PyStr) : Option ℤ :=
  if s.head? = some '-' then (parseDigits s.tail).map fun n => -(n : ℤ)
  else if s.head? = some '+' then (parseDigits s.tail).map fun n => (n : ℤ)
  else (parseDigits s).map fun n => (n : ℤ)

/-- Python's `str.split(sep)` for a one-character separator. -/
def pySplit (sep : Char) : PyStr → List PyStr
  | [] => [[]]
  | c :: rest =>
    if c = sep then [] :: pySplit sep rest
    else
      match pySplit sep rest with
      | [] => [[c]]
      | f :: fs => (c :: f) :: fs

/-- Decimal rendering of a natural number, as Python's `str(n)`. -/
def natStr (n : ℕ) : PyStr :=
  if n = 0 then ['0'] else (Nat.digits 10 n).reverse.map digitToChar

/-- Decimal rendering of an integer, as Python's `str(z)`. -/
def intStr (z : ℤ) : PyStr :=
  if z < 0 then '-' :: natStr z.natAbs else natStr z.toNat

/-- Python's `f"{z:02d}"`: decimal rendering left-padded with `'0'` to
width two. -/
def format02 (z : ℤ) : PyStr :=
  if (intStr z).length < 2 then '0' :: intStr z else intStr z

/-- Python's `int(x)` on a float: truncation toward zero. -/
noncomputable def pyIntR (x : ℝ) : ℤ := if 0 ≤ x then ⌊x⌋ else ⌈x⌉

/-- `seconds_to_timestamp` from `detect_amen.py` (lines 71-76):
`h = int(secs) // 3600`, `m = (int(secs) % 3600) // 60`,
`s = int(secs) % 60`, each field zero-padded to width two and joined
with colons.
Python's `//` and `%` on integers are floor division and its modulus,
i.e. `Int.fdiv` and `Int.fmod`. -/
noncomputable def seconds_to_timestamp (secs : ℝ) : PyStr :=
  format02 (Int.fdiv (pyIntR secs) 3600) ++
    ':' :: (format02 (Int.fdiv (Int.fmod (pyIntR secs) 3600) 60) ++
      ':' :: format02 (Int.fmod (pyIntR secs) 60))

/-- `parse_timestamp` from `create_amen_template.py` (lines 41-49):
split on `":"`; three fields are `H:M:S`, two fields are `M:S`, anything
else raises `ValueError` (modelled by `none`, as is a `ValueError` from
`int(...)` on a non-numeric field). -/
def parse_timestamp (ts : PyStr) : Option ℤ :=
  match pySplit ':' ts with
  | [a, b, c] => do
    let x ← pyInt a
    let y ← pyInt b
    let z ← pyInt c
    some (x * 3600 + y * 60 + z)
  | [a, b] => do
    let x ← pyInt a
    let y ← pyInt b
    some (x * 60 + y)
  | _ => none

/-! ### The matcher (`match_template_chroma`, detect_amen.py lines 114-137)

A chromagram with `n` frames is a 12 × `n` real matrix.  numpy float
arithmetic is modelled by exact real arithmetic. -/

/-- A 12 × `n` chroma matrix (12 pitch-class rows, `n` analysis frames). -/
abbrev Mat (n : ℕ) := Fin 12 → Fin n → ℝ

/-- numpy's `A.mean()`: global mean over all `12 * n` entries. -/
noncomputable def gMean {n : ℕ} (A : Mat n) : ℝ :=
  (∑ i : Fin 12, ∑ j : Fin n, A i j) / (12 * n)

/-- numpy's `A.std()`: population standard deviation over all entries. -/
noncomputable def gStd {n : ℕ} (A : Mat n) : ℝ :=
  Real.sqrt ((∑ i : Fin 12, ∑ j : Fin n, (A i j - gMean A) ^ 2) / (12 * n))

/-- The literal `1e-10` guarding the division by the standard deviation. -/
noncomputable def npEps : ℝ := 1 / 10 ^ 10

/-- Line 121/122: `(A - A.mean()) / (A.std() + 1e-10)`. -/
noncomputable def normalizeMat {n : ℕ} (A : Mat n) : Mat n :=
  fun i j => (A i j - gMean A) / (gStd A + npEps)

/-- The sum over the 12 chroma rows of the valid-mode cross-correlation at
offset `k`: `scipy.signal.correlate(sn[i], tn[i], mode='valid')[k]` is the
dot product of `tn[i]` with the window `sn[i][k : k+M]`, summed over `i`
(the loop in lines 127-129).  Out-of-range window positions cannot occur
for `k ≤ N - M`; the guard returns 0 there so the function is total. -/
noncomputable def rowDot {M N : ℕ} (Tn : Mat M) (Sn : Mat N) (k : ℕ) : ℝ :=
  ∑ i : Fin 12, ∑ j : Fin M,
    Tn i j * (if h : k + (j : ℕ) < N then Sn i ⟨k + (j : ℕ), h⟩ else 0)

/-- The correlation sequence after line 132's `correlations /= M`. -/
noncomputable def corrM {M N : ℕ} (T : Mat M) (S : Mat N) (k : ℕ) : ℝ :=
  rowDot (normalizeMat T) (normalizeMat S) k / M

/-- numpy's `np.argmax` over indices `0, …, L-1`: a left-to-right scan that
keeps the current best and replaces it only on a strictly larger value, so
the first occurrence of the maximum wins. -/
noncomputable def npArgmax (f : ℕ → ℝ) (L : ℕ) : ℕ :=
  (List.range L).foldl (fun b k => if f b < f k then k else b) 0

/-- Python exceptions relevant to the matcher.  The source raises only
unstructured `ValueError`s (from numpy/scipy); `searchWindowTooShortError`
is modelled from the spec: the spec's matcher contract names a structured
`SearchWindowTooShortError`, which no code in the repository defines or
raises — the constructor exists only so that the specified behaviour can
be stated and compared with the code's. -/
inductive PyExc
  | valueError (msg : String)
  | searchWindowTooShortError
  deriving DecidableEq

/-- numpy's message for a negative array dimension. -/
def negDimsMsg : String := "negative dimensions are not allowed"

/-- numpy's message for a shape mismatch on accumulation. -/
def broadcastMsg : String := "operands could not be broadcast together"

/-- scipy's rejection of an empty correlation input. -/
def emptyInputMsg : String := "correlate: empty input"

/-- `match_template_chroma(template_chroma, search_chroma)` from
detect_amen.py lines 114-137.

With `M` template frames and `N` search frames the code first normalizes
both matrices, then allocates `np.zeros(N - M + 1)` — which raises
`ValueError: negative dimensions are not allowed` when `N - M + 1 < 0` —
then accumulates `signal.correlate(search_norm[i], template_norm[i],
'valid')` for the 12 rows.  When `N = M - 1` the correlate call swaps its
arguments (scipy's valid-mode swap) and yields a length-2 array which
fails to broadcast onto the length-0 accumulator; when `M = 0` (or
`N = 0 < M`) scipy rejects the empty input.  On success it divides by `M`,
takes `np.argmax`, and returns that index together with the value there
divided by 12. -/
noncomputable def match_template_chroma {M N : ℕ} (T : Mat M) (S : Mat N) :
    Except PyExc (ℕ × ℝ) :=
  if N + 1 < M then
    Except.error (PyExc.valueError negDimsMsg)
  else if N < M then
    Except.error (PyExc.valueError broadcastMsg)
  else if M = 0 then
    Except.error (PyExc.valueError emptyInputMsg)
  else
    Except.ok (npArgmax (corrM T S) (N - M + 1),
      corrM T S (npArgmax (corrM T S) (N - M + 1)) / 12)

/-- Modelled from the spec (§4.3 steps 2-4): the aggregate correlation
sequence — the sum over the 12 rows of the dot product of the normalized
template row with the normalized search row's window `[k, k+M)`, divided
by `M` and then by 12. -/
noncomputable def specAggregate {M N : ℕ} (T : Mat M) (S : Mat N) (k : ℕ) : ℝ :=
  rowDot (normalizeMat T) (normalizeMat S) k / M / 12

/-! ### The `find_amen` pipeline (detect_amen.py lines 140-229) -/

/-- The reasons for the structured `{"detected": false, "error": ...}`
results that `find_amen` and `main` print (the formatted message strings
are abstracted to their kind plus the values interpolated into them).
The last three kinds are the dicts printed by `main` itself: the usage
message (lines 239-245), the missing-dependency report (lines 247-251)
and the missing-video report (lines 265-272). -/
inductive ErrKind
  | templateNotFound
  | durationQueryFailed (stderr : String)
  | videoTooShort (videoDuration searchStart : ℝ)
  | extractionFailed
  | usageError
  | missingDependencies
  | videoNotFound

/-- The structured JSON results `find_amen` can return: an error result,
a below-threshold result (lines 210-216, carrying `best_score` and
`best_time`), or a detection (lines 218-225). -/
inductive DetectResult
  | errorResult (kind : ErrKind)
  | notDetected (best_score : ℝ) (best_time : PyStr)
  | detected (amen_start : PyStr) (amen_start_seconds : ℤ)
      (amen_end : PyStr) (amen_end_seconds : ℤ) (confidence : ℝ)

/-- The external collaborators of one `find_amen` run: whether the
template file exists, what `np.load` yields (`Except.error` = the
exception a corrupt file raises), what `ffprobe` reports, whether
`ffmpeg` extraction succeeds, and the chroma matrix computed for the
extracted window. -/
structure DetectEnv where
  templateExists : Bool
  templateLoad : Except PyExc ((n : ℕ) × Mat n)
  videoDuration : Except String ℝ
  extractOk : Bool
  searchChroma : (n : ℕ) × Mat n

/-- Line 176: `search_start = start_offset_minutes * 60`. -/
noncomputable def search_start (startOffsetMinutes : ℤ) : ℝ :=
  (startOffsetMinutes : ℝ) * 60

/-- Line 177: `search_duration = min(search_duration_minutes * 60,
video_duration - search_start)`. -/
noncomputable def search_duration (searchDurationMinutes : ℤ)
    (videoDuration searchStart : ℝ) : ℝ :=
  min ((searchDurationMinutes : ℝ) * 60) (videoDuration - searchStart)

/-- Line 203/204: `best_time_absolute = search_start + best_idx * hop / sr`. -/
noncomputable def best_time_absolute (searchStart : ℝ)
    (bestIdx hop sr : ℕ) : ℝ :=
  searchStart + (bestIdx : ℝ) * hop / sr

/-- Line 207: `template_duration = template_chroma.shape[1] * hop / sr`. -/
noncomputable def template_duration (m hop sr : ℕ) : ℝ :=
  (m : ℝ) * hop / sr

/-- Line 208: `amen_end_absolute = best_time_absolute + template_duration`. -/
noncomputable def amen_end_absolute (searchStart : ℝ)
    (bestIdx m hop sr : ℕ) : ℝ :=
  best_time_absolute searchStart bestIdx hop sr + template_duration m hop sr

/-- The detection dict of lines 218-225: timestamps via
`seconds_to_timestamp`, whole-second fields via Python's `int(...)`. -/
noncomputable def mkDetected (startAbs endAbs conf : ℝ) : DetectResult :=
  DetectResult.detected (seconds_to_timestamp startAbs) (pyIntR startAbs)
    (seconds_to_timestamp endAbs) (pyIntR endAbs) conf

/-- Lines 210-225: the threshold decision on the matcher's score. -/
noncomputable def classifyOutcome (bestScore minConfidence startAbs endAbs : ℝ) :
    DetectResult :=
  if bestScore < minConfidence then
    DetectResult.notDetected bestScore (seconds_to_timestamp endAbs)
  else mkDetected startAbs endAbs bestScore

/-- `find_amen` (lines 140-229) against an environment of external
collaborators.  `Except.error` is an exception escaping `find_amen`
(nothing in the function catches exceptions; the `try/finally` only
removes the temp file), `Except.ok` is a returned dict.  The chroma hop
and sample rate are the constants 512 and 22050 of `compute_chroma`. -/
noncomputable def find_amen (env : DetectEnv)
    (startOffsetMinutes searchDurationMinutes : ℤ) (minConfidence : ℝ) :
    Except PyExc DetectResult :=
  if env.templateExists = false then
    Except.ok (DetectResult.errorResult ErrKind.templateNotFound)
  else
    match env.templateLoad with
    | Except.error e => Except.error e
    | Except.ok tmpl =>
      match env.videoDuration with
      | Except.error e =>
        Except.ok (DetectResult.errorResult (ErrKind.durationQueryFailed e))
      | Except.ok videoDuration =>
        if search_duration searchDurationMinutes videoDuration
            (search_start startOffsetMinutes) ≤ 0 then
          Except.ok (DetectResult.errorResult
            (ErrKind.videoTooShort videoDuration
              (search_start startOffsetMinutes)))
        else if env.extractOk = false then
          Except.ok (DetectResult.errorResult ErrKind.extractionFailed)
        else
          match match_template_chroma tmpl.2 env.searchChroma.2 with
          | Except.error e => Except.error e
          | Except.ok (bestIdx, bestScore) =>
            Except.ok (classifyOutcome bestScore minConfidence
              (best_time_absolute (search_start startOffsetMinutes)
                bestIdx 512 22050)
              (amen_end_absolute (search_start startOffsetMinutes)
                bestIdx tmpl.1 512 22050))

/-- The exact factor by which normalization changes when a matrix is
scaled by `c > 0`: `c·(σ+ε)/(c·σ+ε)`, with `σ` the matrix's standard
deviation and `ε = 1e-10`. -/
noncomputable def scaleFac {n : ℕ} (A : Mat n) (c : ℝ) : ℝ :=
  c * (gStd A + npEps) / (c * gStd A + npEps)

/-! ### The `main` entry point (detect_amen.py lines 232-276) -/

/-- The `-h` flag recognised by `main` (line 234). -/
def helpShort : PyStr := ['-', 'h']

/-- The `--help` flag recognised by `main` (line 234). -/
def helpLong : PyStr := ['-', '-', 'h', 'e', 'l', 'p']

/-- Python's message when `int(...)` is given a non-numeric string. -/
def intParseMsg : String := "invalid literal for int() with base 10"

/-- What a completed run of `main` does at the process boundary: either
prints the module docstring (the help path, exit 0) or prints one
structured JSON result dict and exits with the given code. -/
inductive MainResult
  | helpShown
  | printed (result : DetectResult) (exitCode : ℕ)

/-- The external collaborators of one `main` run beyond those of
`find_amen`: whether the required Python packages are importable
(lines 247-251) and whether the video file exists (line 266). -/
structure MainEnv where
  depsOk : Bool
  videoExists : Bool
  detect : DetectEnv

/-- `main` (lines 232-276) against an environment and the full `sys.argv`
(element 0 is the script name).  In order: the help flag; the usage check
(`len(sys.argv) < 2`); the dependency check; `int(sys.argv[2])` and
`int(sys.argv[3])` with defaults 20 and 90 — a malformed argument makes
`int` raise an uncaught `ValueError` (`Except.error`); the video
existence check; then `find_amen` with the default threshold 0.50, whose
result dict is printed (exceptions escaping `find_amen` escape `main`
too).  The template-directory argument only feeds the `templateExists`
collaborator and is not separately modelled. -/
noncomputable def pyMain (env : MainEnv) (argv : List PyStr) :
    Except PyExc MainResult :=
  if 2 ≤ argv.length ∧
      (argv.getD 1 [] = helpShort ∨ argv.getD 1 [] = helpLong) then
    Except.ok MainResult.helpShown
  else if argv.length < 2 then
    Except.ok (MainResult.printed (DetectResult.errorResult ErrKind.usageError) 1)
  else if env.depsOk = false then
    Except.ok (MainResult.printed
      (DetectResult.errorResult ErrKind.missingDependencies) 1)
  else
    match (if 2 < argv.length then pyInt (argv.getD 2 []) else some 20) with
    | none => Except.error (PyExc.valueError intParseMsg)
    | some startOffsetMinutes =>
      match (if 3 < argv.length then pyInt (argv.getD 3 []) else some 90) with
      | none => Except.error (PyExc.valueError intParseMsg)
      | some searchDurationMinutes =>
        if env.videoExists = false then
          Except.ok (MainResult.printed
            (DetectResult.errorResult ErrKind.videoNotFound) 1)
        else
          match find_amen env.detect startOffsetMinutes
              searchDurationMinutes (1 / 2) with
          | Except.error e => Except.error e
          | Except.ok r => Except.ok (MainResult.printed r 0)

/-! ### Concrete instances used in witnesses and counterexamples -/

/-- A 12 × 1 chroma matrix with six entries 0 and six entries 2: its
global mean and global standard deviation are both 1. -/
noncomputable def exMat1 : Mat 1 := fun i _ => if (i : ℕ) < 6 then 0 else 2

/-- A 12 × 3 all-zero chroma matrix (a 3-frame template). -/
noncomputable def exMat3 : Mat 3 := fun _ _ => 0

/-- A 12 × 1 all-zero chroma matrix (a 1-frame search window). -/
noncomputable def exMat1z : Mat 1 := fun _ _ => 0

/-- The scaling constant `1e-20` of the scale-invariance counterexample. -/
noncomputable def cTiny : ℝ := 1 / 10 ^ 20

/-- An environment in which every external collaborator succeeds but the
loaded template has 3 frames while the search chroma has only 1. -/
noncomputable def envShort : DetectEnv where
  templateExists := true
  templateLoad := Except.ok ⟨3, exMat3⟩
  videoDuration := Except.ok 10000
  extractOk := true
  searchChroma := ⟨1, exMat1z⟩

/-- An environment in which every external collaborator succeeds and the
shapes are compatible (1-frame template, 1-frame search window). -/
noncomputable def envOk : DetectEnv where
  templateExists := true
  templateLoad := Except.ok ⟨1, exMat1⟩
  videoDuration := Except.ok 10000
  extractOk := true
  searchChroma := ⟨1, exMat1⟩

/-- An environment whose probed video duration is 0 seconds. -/
noncomputable def envShortVideo : DetectEnv where
  templateExists := true
  templateLoad := Except.ok ⟨1, exMat1⟩
  videoDuration := Except.ok 0
  extractOk := true
  searchChroma := ⟨1, exMat1⟩

/-- A `main` environment with dependencies importable, the video present
and the well-shaped `envOk` collaborators. -/
noncomputable def envMainOk : MainEnv where
  depsOk := true
  videoExists := true
  detect := envOk

/-- A concrete two-element `sys.argv`: script name plus video path. -/
def argvTwo : List PyStr := [['s'], ['v']]

/-- A concrete `sys.argv` whose third element, the start-offset argument,
is the non-numeric string `"a"`. -/
def argvBadInt : List PyStr := [['s'], ['v'], ['a']]

/-! ### Theorems -/

/-! ### Lemmas about digit strings -/

theorem digitVal?_digitToChar {d : ℕ} (hd : d < 10) :
    digitVal? (digitToChar d) = some d := by
  interval_cases d <;> decide

theorem digitToChar_ne {d : ℕ} (hd : d < 10) :
    digitToChar d ≠ ':' ∧ digitToChar d ≠ '-' ∧ digitToChar d ≠ '+' := by
  interval_cases d <;> decide

theorem natStr_ne_nil (n : ℕ) : natStr n ≠ [] := by
  unfold natStr
  split
  · simp
  · next h =>
    simp [Nat.digits_ne_nil_iff_ne_zero, h]

theorem natStr_mem {n : ℕ} {c : Char} (hc : c ∈ natStr n) :
    ∃ d, d < 10 ∧ c = digitToChar d := by
  unfold natStr at hc
  split at hc
  · refine ⟨0, by norm_num, ?_⟩
    simp only [List.mem_singleton] at hc
    simp [hc, digitToChar]
  · next h =>
    rcases List.mem_map.mp hc with ⟨d, hd, rfl⟩
    exact ⟨d, Nat.digits_lt_base (by norm_num) (List.mem_reverse.mp hd), rfl⟩

theorem parseDigitsAux_map (L : List ℕ) (hL : ∀ d ∈ L, d < 10) :
    ∀ acc : ℕ, parseDigitsAux acc (L.map digitToChar) =
      some (acc * 10 ^ L.length + Nat.ofDigits 10 L.reverse) := by
  induction L with
  | nil => intro acc; simp [parseDigitsAux, Nat.ofDigits]
  | cons d L ih =>
    intro acc
    have hd : d < 10 := hL d (by simp)
    simp only [List.map_cons, parseDigitsAux, digitVal?_digitToChar hd]
    rw [ih (fun x hx => hL x (by simp [hx])) (10 * acc + d)]
    congr 1
    rw [List.reverse_cons, Nat.ofDigits_append]
    simp [Nat.ofDigits_singleton, List.length_reverse]
    ring

theorem parseDigits_natStr (n : ℕ) : parseDigits (natStr n) = some n := by
  unfold parseDigits natStr
  by_cases h : n = 0
  · subst h
    decide
  · rw [if_neg h, if_neg (by simp [Nat.digits_ne_nil_iff_ne_zero, h])]
    have hlt : ∀ d ∈ (Nat.digits 10 n).reverse, d < 10 := by
      intro d hd
      exact Nat.digits_lt_base (by norm_num) (List.mem_reverse.mp hd)
    rw [parseDigitsAux_map _ hlt 0]
    simp [Nat.ofDigits_digits]

theorem parseDigits_cons_zero (l : PyStr) (hl : l ≠ []) :
    parseDigits ('0' :: l) = parseDigits l := by
  unfold parseDigits
  rw [if_neg (by simp), if_neg hl]
  show parseDigitsAux 0 ('0' :: l) = parseDigitsAux 0 l
  simp [parseDigitsAux, digitVal?]

theorem intStr_natCast (m : ℕ) : intStr (m : ℤ) = natStr m := by
  unfold intStr
  rw [if_neg (not_lt.mpr (Int.natCast_nonneg m))]
  simp

theorem format02_natCast (m : ℕ) :
    format02 (m : ℤ) =
      if (natStr m).length < 2 then '0' :: natStr m else natStr m := by
  unfold format02
  rw [intStr_natCast]

theorem format02_natCast_mem {m : ℕ} {c : Char} (hc : c ∈ format02 (m : ℤ)) :
    ∃ d, d < 10 ∧ c = digitToChar d := by
  rw [format02_natCast] at hc
  split at hc
  · rcases List.mem_cons.mp hc with h0 | h0
    · exact ⟨0, by norm_num, by simp [h0, digitToChar]⟩
    · exact natStr_mem h0
  · exact natStr_mem hc

theorem format02_no_colon (m : ℕ) : ∀ c ∈ format02 (m : ℤ), c ≠ ':' := by
  intro c hc
  rcases format02_natCast_mem hc with ⟨d, hd, rfl⟩
  exact (digitToChar_ne hd).1

theorem pyInt_format02 (m : ℕ) : pyInt (format02 (m : ℤ)) = some (m : ℤ) := by
  have hhead : ∀ c, (format02 (m : ℤ)).head? = some c → c ≠ '-' ∧ c ≠ '+' := by
    intro c hc
    have hmem : c ∈ format02 (m : ℤ) := List.mem_of_mem_head? hc
    rcases format02_natCast_mem hmem with ⟨d, hd, rfl⟩
    exact ⟨(digitToChar_ne hd).2.1, (digitToChar_ne hd).2.2⟩
  have hne : format02 (m : ℤ) ≠ [] := by
    rw [format02_natCast]
    split
    · simp
    · exact natStr_ne_nil m
  obtain ⟨c, hc⟩ : ∃ c, (format02 (m : ℤ)).head? = some c := by
    cases h : format02 (m : ℤ) with
    | nil => exact absurd h hne
    | cons x xs => exact ⟨x, by simp [h]⟩
  unfold pyInt
  rw [if_neg (by rw [hc]; simp [(hhead c hc).1]),
    if_neg (by rw [hc]; simp [(hhead c hc).2])]
  have hdig : parseDigits (format02 (m : ℤ)) = some m := by
    rw [format02_natCast]
    split
    · rw [parseDigits_cons_zero _ (natStr_ne_nil m), parseDigits_natStr]
    · exact parseDigits_natStr m
  rw [hdig]
  rfl

/-! ### Lemmas about `pySplit` -/

theorem pySplit_no_sep (sep : Char) :
    ∀ l : PyStr, (∀ c ∈ l, c ≠ sep) → pySplit sep l = [l] := by
  intro l
  induction l with
  | nil => intro _; rfl
  | cons c rest ih =>
    intro h
    simp only [pySplit]
    rw [if_neg (h c (by simp)), ih (fun x hx => h x (by simp [hx]))]

theorem pySplit_append (sep : Char) :
    ∀ a t : PyStr, (∀ c ∈ a, c ≠ sep) →
      pySplit sep (a ++ sep :: t) = a :: pySplit sep t := by
  intro a
  induction a with
  | nil =>
    intro t _
    simp [pySplit]
  | cons c rest ih =>
    intro t h
    simp only [List.cons_append, pySplit, List.append_eq]
    rw [if_neg (h c (by simp)), ih t (fun x hx => h x (by simp [hx]))]

theorem pySplit_three (sep : Char) (a b c : PyStr)
    (ha : ∀ x ∈ a, x ≠ sep) (hb : ∀ x ∈ b, x ≠ sep)
    (hc : ∀ x ∈ c, x ≠ sep) :
    pySplit sep (a ++ sep :: (b ++ sep :: c)) = [a, b, c] := by
  rw [pySplit_append sep a _ ha, pySplit_append sep b _ hb,
    pySplit_no_sep sep c hc]

/-! ### The timestamp round trip -/

theorem fdiv_natCast (n k : ℕ) :
    Int.fdiv (n : ℤ) (k : ℤ) = ((n / k : ℕ) : ℤ) := by
  cases n with
  | zero => simp [Int.fdiv]
  | succ m => simp [Int.fdiv]

theorem fmod_natCast (n k : ℕ) :
    Int.fmod (n : ℤ) (k : ℤ) = ((n % k : ℕ) : ℤ) := by
  cases n with
  | zero => simp [Int.fmod]
  | succ m => simp [Int.fmod]

theorem pyIntR_nonneg {x : ℝ} (hx : 0 ≤ x) : pyIntR x = ⌊x⌋ := if_pos hx

theorem floor_eq_natCast {x : ℝ} (hx : 0 ≤ x) : ⌊x⌋ = ((⌊x⌋₊ : ℕ) : ℤ) := by
  rw [← Int.floor_toNat, Int.toNat_of_nonneg (Int.floor_nonneg.mpr hx)]

theorem seconds_to_timestamp_eq (x : ℝ) (hx : 0 ≤ x) :
    seconds_to_timestamp x =
      format02 ((⌊x⌋₊ / 3600 : ℕ) : ℤ) ++
        ':' :: (format02 ((⌊x⌋₊ % 3600 / 60 : ℕ) : ℤ) ++
          ':' :: format02 ((⌊x⌋₊ % 60 : ℕ) : ℤ)) := by
  unfold seconds_to_timestamp
  rw [pyIntR_nonneg hx, floor_eq_natCast hx]
  rw [show ((3600 : ℤ)) = ((3600 : ℕ) : ℤ) by norm_num,
    show ((60 : ℤ)) = ((60 : ℕ) : ℤ) by norm_num]
  rw [fdiv_natCast, fmod_natCast, fdiv_natCast, fmod_natCast]

theorem parse_seconds_to_timestamp (x : ℝ) (hx : 0 ≤ x) :
    parse_timestamp (seconds_to_timestamp x) = some ⌊x⌋ := by
  rw [seconds_to_timestamp_eq x hx]
  unfold parse_timestamp
  rw [pySplit_three ':' _ _ _ (format02_no_colon _) (format02_no_colon _)
    (format02_no_colon _)]
  simp only [pyInt_format02, Option.bind_eq_bind, Option.some_bind]
  rw [floor_eq_natCast hx]
  congr 1
  push_cast
  have harith : ⌊x⌋₊ / 3600 * 3600 + ⌊x⌋₊ % 3600 / 60 * 60 + ⌊x⌋₊ % 60 = ⌊x⌋₊ := by
    omega
  exact_mod_cast congrArg (fun n : ℕ => (n : ℤ)) harith

theorem npEps_pos : 0 < npEps := by norm_num [npEps]

theorem gStd_nonneg {n : ℕ} (A : Mat n) : 0 ≤ gStd A := Real.sqrt_nonneg _

theorem specAggregate_eq_corrM {M N : ℕ} (T : Mat M) (S : Mat N) (k : ℕ) :
    specAggregate T S k = corrM T S k / 12 := rfl

/-! ### `npArgmax` is the first index of the maximum -/

theorem npArgmax_zero (f : ℕ → ℝ) : npArgmax f 0 = 0 := rfl

theorem npArgmax_succ (f : ℕ → ℝ) (L : ℕ) :
    npArgmax f (L + 1) =
      if f (npArgmax f L) < f L then L else npArgmax f L := by
  unfold npArgmax
  rw [List.range_succ, List.foldl_append]
  rfl

theorem npArgmax_lt (f : ℕ → ℝ) : ∀ L, 0 < L → npArgmax f L < L := by
  intro L
  induction L with
  | zero => omega
  | succ n ih =>
    intro _
    rw [npArgmax_succ]
    split
    · omega
    · rcases Nat.eq_zero_or_pos n with h | h
      · subst h
        simp [npArgmax_zero]
      · exact Nat.lt_succ_of_lt (ih h)

theorem npArgmax_le (f : ℕ → ℝ) : ∀ L j, j < L → f j ≤ f (npArgmax f L) := by
  intro L
  induction L with
  | zero => omega
  | succ n ih =>
    intro j hj
    rw [npArgmax_succ]
    rcases Nat.lt_succ_iff_lt_or_eq.mp hj with hj' | rfl
    · split
      · next h => exact le_trans (ih j hj') (le_of_lt h)
      · exact ih j hj'
    · split
      · exact le_refl _
      · next h => exact le_of_not_lt h

theorem npArgmax_first (f : ℕ → ℝ) :
    ∀ L j, j < L → f (npArgmax f L) ≤ f j → npArgmax f L ≤ j := by
  intro L
  induction L with
  | zero => omega
  | succ n ih =>
    intro j hj
    rw [npArgmax_succ]
    by_cases hcond : f (npArgmax f n) < f n
    · rw [if_pos hcond]
      intro hf
      rcases Nat.lt_succ_iff_lt_or_eq.mp hj with hj' | hj'
      · exfalso
        have h1 : f j ≤ f (npArgmax f n) := npArgmax_le f n j hj'
        exact absurd (lt_of_le_of_lt (le_trans hf h1) hcond) (lt_irrefl _)
      · omega
    · rw [if_neg hcond]
      intro hf
      rcases Nat.lt_succ_iff_lt_or_eq.mp hj with hj' | hj'
      · exact ih j hj' hf
      · subst hj'
        rcases Nat.eq_zero_or_pos j with h0 | h0
        · subst h0
          simp [npArgmax_zero]
        · exact le_of_lt (npArgmax_lt f j h0)

theorem npArgmax_congr (f g : ℕ → ℝ)
    (h : ∀ b k, f b < f k ↔ g b < g k) :
    ∀ L, npArgmax f L = npArgmax g L := by
  intro L
  induction L with
  | zero => rfl
  | succ n ih =>
    rw [npArgmax_succ, npArgmax_succ, ih]
    by_cases hb : g (npArgmax g n) < g n
    · rw [if_pos ((h _ _).mpr hb), if_pos hb]
    · rw [if_neg (fun hc => hb ((h _ _).mp hc)), if_neg hb]

/-- On well-shaped inputs (`1 ≤ M ≤ N`) the matcher succeeds, returning
the first argmax of the `/M`-scaled correlation sequence and its value
divided by 12. -/
theorem match_ok {M N : ℕ} (T : Mat M) (S : Mat N) (hM : 1 ≤ M)
    (hMN : M ≤ N) :
    match_template_chroma T S =
      Except.ok (npArgmax (corrM T S) (N - M + 1),
        corrM T S (npArgmax (corrM T S) (N - M + 1)) / 12) := by
  unfold match_template_chroma
  rw [if_neg (by omega), if_neg (by omega), if_neg (by omega)]

/-! ### Behaviour of the matcher under uniform positive scaling -/

theorem gMean_smul {n : ℕ} (A : Mat n) (c : ℝ) :
    gMean (fun i j => c * A i j) = c * gMean A := by
  unfold gMean
  simp only [← Finset.mul_sum]
  rw [mul_div_assoc]

theorem gStd_smul {n : ℕ} (A : Mat n) (c : ℝ) (hc : 0 ≤ c) :
    gStd (fun i j => c * A i j) = c * gStd A := by
  unfold gStd
  rw [gMean_smul]
  have h : ∀ i : Fin 12, ∀ j : Fin n,
      (c * A i j - c * gMean A) ^ 2 = c ^ 2 * (A i j - gMean A) ^ 2 := by
    intro i j
    ring
  simp only [h]
  simp only [← Finset.mul_sum]
  rw [mul_div_assoc, Real.sqrt_mul (sq_nonneg c), Real.sqrt_sq hc]

theorem scaleFac_pos {n : ℕ} (A : Mat n) (c : ℝ) (hc : 0 < c) :
    0 < scaleFac A c := by
  apply div_pos
  · exact mul_pos hc (add_pos_of_nonneg_of_pos (gStd_nonneg A) npEps_pos)
  · exact add_pos_of_nonneg_of_pos (mul_nonneg hc.le (gStd_nonneg A)) npEps_pos

theorem normalizeMat_smul {n : ℕ} (A : Mat n) (c : ℝ) (hc : 0 < c) :
    normalizeMat (fun i j => c * A i j) =
      fun i j => scaleFac A c * normalizeMat A i j := by
  funext i j
  unfold normalizeMat scaleFac
  rw [gMean_smul, gStd_smul A c hc.le]
  have h1 : gStd A + npEps ≠ 0 :=
    ne_of_gt (add_pos_of_nonneg_of_pos (gStd_nonneg A) npEps_pos)
  have h2 : c * gStd A + npEps ≠ 0 :=
    ne_of_gt (add_pos_of_nonneg_of_pos (mul_nonneg hc.le (gStd_nonneg A)) npEps_pos)
  field_simp
  ring

theorem rowDot_smul_right {M N : ℕ} (Tn : Mat M) (Sn : Mat N) (lam : ℝ)
    (k : ℕ) :
    rowDot Tn (fun i j => lam * Sn i j) k = lam * rowDot Tn Sn k := by
  unfold rowDot
  rw [Finset.mul_sum]
  refine Finset.sum_congr rfl fun i _ => ?_
  rw [Finset.mul_sum]
  refine Finset.sum_congr rfl fun j _ => ?_
  simp only []
  split
  · ring
  · ring

theorem rowDot_smul_left {M N : ℕ} (Tn : Mat M) (Sn : Mat N) (lam : ℝ)
    (k : ℕ) :
    rowDot (fun i j => lam * Tn i j) Sn k = lam * rowDot Tn Sn k := by
  unfold rowDot
  rw [Finset.mul_sum]
  refine Finset.sum_congr rfl fun i _ => ?_
  rw [Finset.mul_sum]
  refine Finset.sum_congr rfl fun j _ => ?_
  simp only []
  split
  · ring
  · ring

theorem corrM_smul_right {M N : ℕ} (T : Mat M) (S : Mat N) (c : ℝ)
    (hc : 0 < c) (k : ℕ) :
    corrM T (fun i j => c * S i j) k = scaleFac S c * corrM T S k := by
  unfold corrM
  rw [normalizeMat_smul S c hc, rowDot_smul_right, mul_div_assoc]

theorem corrM_smul_left {M N : ℕ} (T : Mat M) (S : Mat N) (c : ℝ)
    (hc : 0 < c) (k : ℕ) :
    corrM (fun i j => c * T i j) S k = scaleFac T c * corrM T S k := by
  unfold corrM
  rw [normalizeMat_smul T c hc, rowDot_smul_left, mul_div_assoc]

theorem match_smul_right {M N : ℕ} (T : Mat M) (S : Mat N) (c : ℝ)
    (hc : 0 < c) (hM : 1 ≤ M) (hMN : M ≤ N) :
    match_template_chroma T (fun i j => c * S i j) =
      Except.ok (npArgmax (corrM T S) (N - M + 1),
        scaleFac S c *
          (corrM T S (npArgmax (corrM T S) (N - M + 1)) / 12)) := by
  have hlp : 0 < scaleFac S c := scaleFac_pos S c hc
  have hpoint : ∀ k, corrM T (fun i j => c * S i j) k =
      scaleFac S c * corrM T S k := fun k => corrM_smul_right T S c hc k
  rw [match_ok T _ hM hMN]
  have harg : npArgmax (corrM T (fun i j => c * S i j)) (N - M + 1) =
      npArgmax (corrM T S) (N - M + 1) := by
    apply npArgmax_congr
    intro b k
    rw [hpoint, hpoint]
    exact mul_lt_mul_left hlp
  rw [harg, hpoint, mul_div_assoc]

theorem match_smul_left {M N : ℕ} (T : Mat M) (S : Mat N) (c : ℝ)
    (hc : 0 < c) (hM : 1 ≤ M) (hMN : M ≤ N) :
    match_template_chroma (fun i j => c * T i j) S =
      Except.ok (npArgmax (corrM T S) (N - M + 1),
        scaleFac T c *
          (corrM T S (npArgmax (corrM T S) (N - M + 1)) / 12)) := by
  have hlp : 0 < scaleFac T c := scaleFac_pos T c hc
  have hpoint : ∀ k, corrM (fun i j => c * T i j) S k =
      scaleFac T c * corrM T S k := fun k => corrM_smul_left T S c hc k
  rw [match_ok _ S hM hMN]
  have harg : npArgmax (corrM (fun i j => c * T i j) S) (N - M + 1) =
      npArgmax (corrM T S) (N - M + 1) := by
    apply npArgmax_congr
    intro b k
    rw [hpoint, hpoint]
    exact mul_lt_mul_left hlp
  rw [harg, hpoint, mul_div_assoc]

/-! ### Evaluating the matcher on the concrete instances -/

theorem npArgmax_one (f : ℕ → ℝ) : npArgmax f 1 = 0 := by
  rw [show (1 : ℕ) = 0 + 1 from rfl, npArgmax_succ, npArgmax_zero]
  split
  · rfl
  · rfl

theorem exMat1_sum : ∑ i : Fin 12, ∑ j : Fin 1, exMat1 i j = 12 := by
  simp [exMat1, Fin.sum_univ_succ]
  norm_num

theorem gMean_exMat1 : gMean exMat1 = 1 := by
  unfold gMean
  rw [exMat1_sum]
  norm_num

theorem exMat1_sumSq : ∑ i : Fin 12, ∑ j : Fin 1, (exMat1 i j - 1) ^ 2 = 12 := by
  simp [exMat1, Fin.sum_univ_succ]
  norm_num

theorem gStd_exMat1 : gStd exMat1 = 1 := by
  unfold gStd
  rw [gMean_exMat1, exMat1_sumSq]
  norm_num [Real.sqrt_one]

theorem normalizeMat_exMat1 (i : Fin 12) (j : Fin 1) :
    normalizeMat exMat1 i j = (exMat1 i j - 1) / (1 + npEps) := by
  unfold normalizeMat
  rw [gMean_exMat1, gStd_exMat1]

theorem corrM_exMat1 : corrM exMat1 exMat1 0 = 12 / (1 + npEps) ^ 2 := by
  have hne : (1 : ℝ) + npEps ≠ 0 := ne_of_gt (by linarith [npEps_pos])
  unfold corrM rowDot
  simp only [Fin.sum_univ_one, normalizeMat_exMat1]
  norm_num
  simp only [exMat1, Fin.sum_univ_succ, Fin.sum_univ_zero]
  norm_num
  field_simp
  ring

theorem match_exMat1 :
    match_template_chroma exMat1 exMat1 = Except.ok (0, 1 / (1 + npEps) ^ 2) := by
  rw [match_ok exMat1 exMat1 le_rfl le_rfl]
  have hsc : (12 / (1 + npEps) ^ 2 : ℝ) / 12 = 1 / (1 + npEps) ^ 2 := by ring
  rw [show (1 - 1 + 1 : ℕ) = 1 from rfl, npArgmax_one, corrM_exMat1, hsc]

theorem match_exMat1_scaled :
    match_template_chroma exMat1 (fun i j => cTiny * exMat1 i j) =
      Except.ok (0, npEps / (1 + npEps) ^ 2) := by
  rw [match_smul_right exMat1 exMat1 cTiny (by norm_num [cTiny]) le_rfl le_rfl]
  rw [show (1 - 1 + 1 : ℕ) = 1 from rfl, npArgmax_one, corrM_exMat1]
  have hfac : scaleFac exMat1 cTiny * (12 / (1 + npEps) ^ 2 / 12) =
      npEps / (1 + npEps) ^ 2 := by
    unfold scaleFac
    rw [gStd_exMat1]
    rw [show npEps = 1 / 10 ^ 10 from rfl, show cTiny = 1 / 10 ^ 20 from rfl]
    norm_num
  rw [hfac]

/-! ### The claims -/

/-- C1: for every 12-row template matrix with `1 ≤ M` columns and 12-row
search matrix with `N ≥ M` columns, the matcher returns an offset `k` in
`[0, N-M]` and a score equal to `specAggregate T S k` — the aggregate
correlation (sum over the 12 rows of the dot product of the normalized
template row with the normalized search window, divided by `M` and by 12)
— where `specAggregate T S k` is the maximum of the aggregate sequence.
(`M ≥ 1` is required: the spec deems a zero-column template corrupt, and
the code raises on one.) -/
theorem C1_match_returns_max_of_spec_aggregate {M N : ℕ} (T : Mat M)
    (S : Mat N) (hM : 1 ≤ M) (hMN : M ≤ N) :
    ∃ k : ℕ, match_template_chroma T S = Except.ok (k, specAggregate T S k) ∧
      k ≤ N - M ∧
      ∀ j, j ≤ N - M → specAggregate T S j ≤ specAggregate T S k := by
  refine ⟨npArgmax (corrM T S) (N - M + 1), ?_, ?_, ?_⟩
  · rw [specAggregate_eq_corrM, match_ok T S hM hMN]
  · have h := npArgmax_lt (corrM T S) (N - M + 1) (by omega)
    omega
  · intro j hj
    rw [specAggregate_eq_corrM, specAggregate_eq_corrM]
    have h := npArgmax_le (corrM T S) (N - M + 1) j (by omega)
    exact (div_le_div_iff_of_pos_right (by norm_num)).mpr h

theorem C1_witness :
    ((1 : ℕ) ≤ 1 ∧ (1 : ℕ) ≤ 1) ∧
      ∃ k : ℕ, match_template_chroma exMat1 exMat1 =
          Except.ok (k, specAggregate exMat1 exMat1 k) ∧
        k ≤ 1 - 1 ∧
        ∀ j, j ≤ 1 - 1 →
          specAggregate exMat1 exMat1 j ≤ specAggregate exMat1 exMat1 k :=
  ⟨⟨le_rfl, le_rfl⟩,
    C1_match_returns_max_of_spec_aggregate exMat1 exMat1 le_rfl le_rfl⟩

/-- C2 counterexample: on a 3-frame template and a 1-frame search matrix
(so `M > N`) the matcher raises numpy's unstructured
`ValueError: negative dimensions are not allowed`, not the structured
`SearchWindowTooShortError` named by the claim. -/
theorem C2_counterexample :
    match_template_chroma exMat3 exMat1z =
        Except.error (PyExc.valueError negDimsMsg) ∧
      match_template_chroma exMat3 exMat1z ≠
        Except.error PyExc.searchWindowTooShortError := by
  have h : match_template_chroma exMat3 exMat1z =
      Except.error (PyExc.valueError negDimsMsg) := by
    unfold match_template_chroma
    rw [if_pos (by norm_num)]
  refine ⟨h, ?_⟩
  rw [h]
  simp

/-- C2 amended: for all frame counts with `M > N` the matcher fails, but
with an unstructured `ValueError` raised from inside numpy/scipy (from
`np.zeros(N - M + 1)` when `N ≤ M - 2`, from the broadcast onto the empty
accumulator when `N = M - 1`), not with a structured
`SearchWindowTooShortError`, which the code never defines. -/
theorem C2_amended_unstructured_error {M N : ℕ} (T : Mat M) (S : Mat N)
    (h : N < M) :
    ∃ msg, match_template_chroma T S =
      Except.error (PyExc.valueError msg) := by
  unfold match_template_chroma
  by_cases h2 : N + 1 < M
  · rw [if_pos h2]
    exact ⟨_, rfl⟩
  · rw [if_neg h2, if_pos h]
    exact ⟨_, rfl⟩

theorem C2_witness :
    (1 : ℕ) < 3 ∧
      ∃ msg, match_template_chroma exMat3 exMat1z =
        Except.error (PyExc.valueError msg) :=
  ⟨by norm_num, C2_amended_unstructured_error exMat3 exMat1z (by norm_num)⟩

/-- C3: the threshold decision of `find_amen` (lines 210-225): a score at
or above the threshold yields the detected dict carrying the score as
`confidence`; a score strictly below yields the not-detected dict still
carrying `best_score` and `best_time` (the timestamp of the computed end
time).  A score exactly equal to the threshold is detected. -/
theorem C3_threshold_decision (s t a e : ℝ) :
    (t ≤ s → classifyOutcome s t a e =
        DetectResult.detected (seconds_to_timestamp a) (pyIntR a)
          (seconds_to_timestamp e) (pyIntR e) s) ∧
    (s < t → classifyOutcome s t a e =
        DetectResult.notDetected s (seconds_to_timestamp e)) := by
  constructor
  · intro h
    unfold classifyOutcome mkDetected
    rw [if_neg (not_lt.mpr h)]
  · intro h
    unfold classifyOutcome
    rw [if_pos h]

theorem C3_witness :
    (1 / 2 : ℝ) ≤ 1 / 2 ∧
      classifyOutcome (1 / 2) (1 / 2) 0 0 =
        DetectResult.detected (seconds_to_timestamp 0) (pyIntR 0)
          (seconds_to_timestamp 0) (pyIntR 0) (1 / 2) :=
  ⟨le_rfl, (C3_threshold_decision (1 / 2) (1 / 2) 0 0).1 le_rfl⟩

/-- C4: the reported start time is `A + k·hop/sr` and the reported end
time exceeds the start time by exactly the template duration
`M·hop/sr` (exact in the real-arithmetic model). -/
theorem C4_timestamp_arithmetic (A : ℝ) (k m hop sr : ℕ) :
    best_time_absolute A k hop sr = A + (k : ℝ) * hop / sr ∧
    amen_end_absolute A k m hop sr - best_time_absolute A k hop sr =
      template_duration m hop sr := by
  constructor
  · rfl
  · unfold amen_end_absolute
    ring

/-- C5 counterexample: in an environment where the template file exists
and loads as a 3-frame matrix, the probe and extraction succeed, and the
search chroma has 1 frame, `find_amen` does not return a structured
outcome: the matcher's `ValueError` escapes uncaught across the external
boundary. -/
theorem C5_counterexample :
    find_amen envShort 20 90 (1 / 2) =
      Except.error (PyExc.valueError negDimsMsg) := by
  have hmatch : match_template_chroma exMat3 exMat1z =
      Except.error (PyExc.valueError negDimsMsg) := by
    unfold match_template_chroma
    rw [if_pos (by norm_num)]
  have hdur : ¬ (search_duration 90 10000 (search_start 20) ≤ 0) := by
    unfold search_duration search_start
    push_cast
    norm_num [min_def]
  simp [find_amen, envShort, hdur, hmatch]

theorem find_amen_structured (env : DetectEnv) (o d : ℤ) (conf : ℝ)
    (hload : ∀ e, env.templateLoad ≠ Except.error e)
    (hshape : ∀ tmpl, env.templateLoad = Except.ok tmpl →
      1 ≤ tmpl.1 ∧ tmpl.1 ≤ env.searchChroma.1) :
    ∃ r, find_amen env o d conf = Except.ok r := by
  unfold find_amen
  by_cases hE : env.templateExists = false
  · rw [if_pos hE]
    exact ⟨_, rfl⟩
  · rw [if_neg hE]
    cases hL : env.templateLoad with
    | error e => exact absurd hL (hload e)
    | ok tmpl =>
      cases hD : env.videoDuration with
      | error e => exact ⟨_, rfl⟩
      | ok D =>
        dsimp only
        by_cases hdur : search_duration d D (search_start o) ≤ 0
        · rw [if_pos hdur]
          exact ⟨_, rfl⟩
        · rw [if_neg hdur]
          by_cases hX : env.extractOk = false
          · rw [if_pos hX]
            exact ⟨_, rfl⟩
          · rw [if_neg hX]
            obtain ⟨h1, h2⟩ := hshape tmpl hL
            rw [match_ok _ _ h1 h2]
            exact ⟨_, rfl⟩

theorem find_amen_extract_irrelevant (env : DetectEnv) (o d : ℤ) (conf : ℝ)
    (hX : env.extractOk = false) (χ : (n : ℕ) × Mat n) :
    find_amen { env with searchChroma := χ } o d conf =
      find_amen env o d conf := by
  obtain ⟨tE, tL, vD, xO, sC⟩ := env
  have hX' : xO = false := hX
  subst hX'
  rfl

theorem find_amen_probe_irrelevant (env : DetectEnv) (o d : ℤ) (conf : ℝ)
    (e : String) (hD : env.videoDuration = Except.error e) (b : Bool)
    (χ : (n : ℕ) × Mat n) :
    find_amen { env with extractOk := b, searchChroma := χ } o d conf =
      find_amen env o d conf := by
  obtain ⟨tE, tL, vD, xO, sC⟩ := env
  have hD' : vD = Except.error e := hD
  subst hD'
  rfl

theorem argInt_some (argv : List PyStr) (idx : ℕ) (dflt : ℤ)
    (h : idx < argv.length → pyInt (argv.getD idx []) ≠ none) :
    ∃ v : ℤ,
      (if idx < argv.length then pyInt (argv.getD idx []) else some dflt) =
        some v := by
  by_cases hlen : idx < argv.length
  · rw [if_pos hlen]
    cases hpi : pyInt (argv.getD idx []) with
    | none => exact absurd hpi (h hlen)
    | some v => exact ⟨v, rfl⟩
  · rw [if_neg hlen]
    exact ⟨dflt, rfl⟩

/-- A malformed integer argument (`sys.argv[2] = "a"`) makes `main` raise
an uncaught `ValueError` from `int(...)` (detect_amen.py lines 254-255)
instead of printing a structured outcome. -/
theorem pyMain_malformed_arg_raises :
    pyMain envMainOk argvBadInt = Except.error (PyExc.valueError intParseMsg) := by
  unfold pyMain argvBadInt
  rw [if_neg (by decide), if_neg (by decide),
    if_neg (by simp [envMainOk]), if_pos (by decide)]
  rfl

/-- C5 amended: modelling the full entry point (`main` of lines 232-276
plus `find_amen`): whenever the integer arguments parse (or are absent)
and the template loads without an exception with a frame count between 1
and the search chroma's, `main` returns a structured printed outcome on
every path — covering bad usage, missing dependencies, the missing
video, the missing template, a probe failure, a non-positive clamped
window, an extraction failure, and both threshold outcomes.  The
missing-video failure in particular is converted into the structured
video-not-found dict.  After a probe failure or an extraction failure
the later pipeline stages are never consulted.  The argument-parse,
load-exception and length hypotheses cannot be dropped:
`C5_counterexample` shows the matcher's exception escaping `find_amen`,
and `pyMain_malformed_arg_raises` shows `int(sys.argv[2])` raising
across the boundary. -/
theorem C5_amended_structured_outcomes (env : MainEnv) (argv : List PyStr)
    (hargs2 : 2 < argv.length → pyInt (argv.getD 2 []) ≠ none)
    (hargs3 : 3 < argv.length → pyInt (argv.getD 3 []) ≠ none)
    (hload : ∀ e, env.detect.templateLoad ≠ Except.error e)
    (hshape : ∀ tmpl, env.detect.templateLoad = Except.ok tmpl →
      1 ≤ tmpl.1 ∧ tmpl.1 ≤ env.detect.searchChroma.1) :
    (∃ r, pyMain env argv = Except.ok r) ∧
    (env.videoExists = false → 2 ≤ argv.length →
      ¬(argv.getD 1 [] = helpShort ∨ argv.getD 1 [] = helpLong) →
      env.depsOk = true →
      pyMain env argv = Except.ok (MainResult.printed
        (DetectResult.errorResult ErrKind.videoNotFound) 1)) ∧
    (∀ o d conf, env.detect.extractOk = false → ∀ χ,
      find_amen { env.detect with searchChroma := χ } o d conf =
        find_amen env.detect o d conf) ∧
    (∀ o d conf e, env.detect.videoDuration = Except.error e → ∀ b χ,
      find_amen { env.detect with extractOk := b, searchChroma := χ } o d conf =
        find_amen env.detect o d conf) := by
  obtain ⟨o, ho⟩ := argInt_some argv 2 20 hargs2
  obtain ⟨d, hd⟩ := argInt_some argv 3 90 hargs3
  refine ⟨?_, ?_, ?_, ?_⟩
  · unfold pyMain
    by_cases hhelp : 2 ≤ argv.length ∧
        (argv.getD 1 [] = helpShort ∨ argv.getD 1 [] = helpLong)
    · rw [if_pos hhelp]
      exact ⟨_, rfl⟩
    · rw [if_neg hhelp]
      by_cases hlen : argv.length < 2
      · rw [if_pos hlen]
        exact ⟨_, rfl⟩
      · rw [if_neg hlen]
        by_cases hdeps : env.depsOk = false
        · rw [if_pos hdeps]
          exact ⟨_, rfl⟩
        · rw [if_neg hdeps]
          rw [ho]
          dsimp only
          rw [hd]
          dsimp only
          by_cases hv : env.videoExists = false
          · rw [if_pos hv]
            exact ⟨_, rfl⟩
          · rw [if_neg hv]
            obtain ⟨r, hr⟩ :=
              find_amen_structured env.detect o d (1 / 2) hload hshape
            rw [hr]
            exact ⟨_, rfl⟩
  · intro hv hlen hflag hdeps
    unfold pyMain
    rw [if_neg (fun hc => hflag hc.2), if_neg (by omega),
      if_neg (by simp [hdeps]), ho]
    dsimp only
    rw [hd]
    dsimp only
    rw [if_pos hv]
  · intro o' d' conf hX χ
    exact find_amen_extract_irrelevant env.detect o' d' conf hX χ
  · intro o' d' conf e hD b χ
    exact find_amen_probe_irrelevant env.detect o' d' conf e hD b χ

theorem C5_witness :
    (∃ r, pyMain envMainOk argvTwo = Except.ok r) ∧
    (envMainOk.videoExists = false → 2 ≤ argvTwo.length →
      ¬(argvTwo.getD 1 [] = helpShort ∨ argvTwo.getD 1 [] = helpLong) →
      envMainOk.depsOk = true →
      pyMain envMainOk argvTwo = Except.ok (MainResult.printed
        (DetectResult.errorResult ErrKind.videoNotFound) 1)) ∧
    (∀ o d conf, envMainOk.detect.extractOk = false → ∀ χ,
      find_amen { envMainOk.detect with searchChroma := χ } o d conf =
        find_amen envMainOk.detect o d conf) ∧
    (∀ o d conf e, envMainOk.detect.videoDuration = Except.error e → ∀ b χ,
      find_amen { envMainOk.detect with extractOk := b, searchChroma := χ }
          o d conf =
        find_amen envMainOk.detect o d conf) :=
  C5_amended_structured_outcomes envMainOk argvTwo
    (fun h => absurd h (by decide))
    (fun h => absurd h (by decide))
    (fun e h => by simp [envMainOk, envOk] at h)
    (fun tmpl h => by
      have h2 : (Except.ok ⟨1, exMat1⟩ :
          Except PyExc ((n : ℕ) × Mat n)) = Except.ok tmpl := h
      have h' : tmpl = ⟨1, exMat1⟩ := by
        injection h2 with h3
        exact h3.symm
      subst h'
      exact ⟨le_rfl, le_rfl⟩)

/-- C6 counterexample: matching the mean-1, deviation-1 matrix `exMat1`
against itself scores `1/(1+ε)² ≈ 1`, while scaling the search matrix by
the positive constant `1e-20` drops the score to `ε/(1+ε)² ≈ 1e-10` — a
change larger than `1/2`, far beyond any small numerical tolerance
(the best offset does stay the same). -/
theorem C6_counterexample :
    match_template_chroma exMat1 exMat1 =
        Except.ok (0, 1 / (1 + npEps) ^ 2) ∧
      match_template_chroma exMat1 (fun i j => cTiny * exMat1 i j) =
        Except.ok (0, npEps / (1 + npEps) ^ 2) ∧
      1 / 2 < 1 / (1 + npEps) ^ 2 - npEps / (1 + npEps) ^ 2 := by
  refine ⟨match_exMat1, match_exMat1_scaled, ?_⟩
  rw [show npEps = 1 / 10 ^ 10 from rfl]
  norm_num

/-- C6 amended: scaling either input by any `c > 0` never changes the
best offset, and multiplies the score by the exact factor
`c·(σ+ε)/(c·σ+ε)` (`σ` the scaled matrix's standard deviation,
`ε = 1e-10`) — close to 1 whenever `c·σ` dominates `ε`, but not in
general: `C6_counterexample` exhibits an order-1 score change. -/
theorem C6_amended_scale_invariance {M N : ℕ} (T : Mat M) (S : Mat N)
    (c : ℝ) (hc : 0 < c) (hM : 1 ≤ M) (hMN : M ≤ N) :
    ∃ k s, match_template_chroma T S = Except.ok (k, s) ∧
      match_template_chroma T (fun i j => c * S i j) =
        Except.ok (k, scaleFac S c * s) ∧
      match_template_chroma (fun i j => c * T i j) S =
        Except.ok (k, scaleFac T c * s) :=
  ⟨_, _, match_ok T S hM hMN, match_smul_right T S c hc hM hMN,
    match_smul_left T S c hc hM hMN⟩

theorem C6_witness :
    (0 : ℝ) < 2 ∧
      ∃ k s, match_template_chroma exMat1 exMat1 = Except.ok (k, s) ∧
        match_template_chroma exMat1 (fun i j => 2 * exMat1 i j) =
          Except.ok (k, scaleFac exMat1 2 * s) ∧
        match_template_chroma (fun i j => 2 * exMat1 i j) exMat1 =
          Except.ok (k, scaleFac exMat1 2 * s) :=
  ⟨by norm_num,
    C6_amended_scale_invariance exMat1 exMat1 2 (by norm_num) le_rfl le_rfl⟩

/-- C7: the clamped search window never runs past the end of the
recording (`search_start + search_duration ≤ video_duration`), and when
the clamped duration is not positive the run returns the structured
video-too-short error before extraction or correlation: the result is
this error dict for every value of the extraction outcome and of the
search chroma. -/
theorem C7_window_clamp (env : DetectEnv) (o d : ℤ) (conf D : ℝ)
    (tmpl : (n : ℕ) × Mat n)
    (hE : env.templateExists = true)
    (hL : env.templateLoad = Except.ok tmpl)
    (hD : env.videoDuration = Except.ok D) :
    (search_start o + search_duration d D (search_start o) ≤ D) ∧
    (search_duration d D (search_start o) ≤ 0 → ∀ b χ,
      find_amen { env with extractOk := b, searchChroma := χ } o d conf =
        Except.ok (DetectResult.errorResult
          (ErrKind.videoTooShort D (search_start o)))) := by
  constructor
  · have h := min_le_right ((d : ℝ) * 60) (D - search_start o)
    unfold search_duration
    linarith
  · intro hdur b χ
    unfold find_amen
    dsimp only
    rw [hE, hL, hD]
    rw [if_neg (by simp)]
    dsimp only
    rw [if_pos hdur]

theorem C7_witness :
    search_duration 90 0 (search_start 20) ≤ 0 ∧
      find_amen
          { envShortVideo with extractOk := false, searchChroma := ⟨1, exMat1z⟩ }
          20 90 (1 / 2) =
        Except.ok (DetectResult.errorResult
          (ErrKind.videoTooShort 0 (search_start 20))) := by
  have hdur : search_duration 90 0 (search_start 20) ≤ 0 := by
    unfold search_duration search_start
    push_cast
    norm_num [min_def]
  exact ⟨hdur,
    (C7_window_clamp envShortVideo 20 90 (1 / 2) 0 ⟨1, exMat1⟩ rfl rfl rfl).2
      hdur false ⟨1, exMat1z⟩⟩

/-- C8: whenever the matcher succeeds, the returned offset attains the
maximum of the aggregate correlation sequence, and among all offsets
attaining that maximum it is the lowest one (numpy's `argmax` keeps the
first maximum of its deterministic left-to-right scan). -/
theorem C8_first_max_tie_break {M N : ℕ} (T : Mat M) (S : Mat N)
    (hM : 1 ≤ M) (hMN : M ≤ N) (k : ℕ) (s : ℝ)
    (hmatch : match_template_chroma T S = Except.ok (k, s)) :
    (∀ j, j ≤ N - M → specAggregate T S j ≤ specAggregate T S k) ∧
    (∀ j, j ≤ N - M →
      specAggregate T S j = specAggregate T S k → k ≤ j) := by
  rw [match_ok T S hM hMN] at hmatch
  rw [Except.ok.injEq, Prod.mk.injEq] at hmatch
  obtain ⟨hk, hs⟩ := hmatch
  subst hk
  constructor
  · intro j hj
    rw [specAggregate_eq_corrM, specAggregate_eq_corrM]
    exact (div_le_div_iff_of_pos_right (by norm_num)).mpr
      (npArgmax_le (corrM T S) (N - M + 1) j (by omega))
  · intro j hj heq
    rw [specAggregate_eq_corrM, specAggregate_eq_corrM] at heq
    have hcm : corrM T S j = corrM T S (npArgmax (corrM T S) (N - M + 1)) := by
      linarith
    exact npArgmax_first (corrM T S) (N - M + 1) j (by omega) (le_of_eq hcm.symm)

theorem C8_witness :
    (∀ j, j ≤ 1 - 1 →
      specAggregate exMat1 exMat1 j ≤ specAggregate exMat1 exMat1 0) ∧
    (∀ j, j ≤ 1 - 1 →
      specAggregate exMat1 exMat1 j = specAggregate exMat1 exMat1 0 →
        0 ≤ j) :=
  C8_first_max_tie_break exMat1 exMat1 le_rfl le_rfl 0
    (1 / (1 + npEps) ^ 2) match_exMat1

/-- C9: for every nonnegative real `s`, `seconds_to_timestamp s` is a
colon-separated three-field string whose minutes and seconds fields are
in `[0, 60)`, and `parse_timestamp` maps it back to `⌊s⌋`. -/
theorem C9_timestamp_round_trip (x : ℝ) (hx : 0 ≤ x) :
    (∃ a b c : PyStr, pySplit ':' (seconds_to_timestamp x) = [a, b, c] ∧
      (∃ mv : ℕ, pyInt b = some (mv : ℤ) ∧ mv < 60) ∧
      (∃ sv : ℕ, pyInt c = some (sv : ℤ) ∧ sv < 60)) ∧
    parse_timestamp (seconds_to_timestamp x) = some ⌊x⌋ := by
  constructor
  · rw [seconds_to_timestamp_eq x hx]
    refine ⟨_, _, _,
      pySplit_three ':' _ _ _ (format02_no_colon _) (format02_no_colon _)
        (format02_no_colon _), ?_, ?_⟩
    · exact ⟨⌊x⌋₊ % 3600 / 60, pyInt_format02 _, by omega⟩
    · exact ⟨⌊x⌋₊ % 60, pyInt_format02 _, by omega⟩
  · exact parse_seconds_to_timestamp x hx

theorem C9_witness :
    (0 : ℝ) ≤ 0 ∧
      ((∃ a b c : PyStr,
        pySplit ':' (seconds_to_timestamp 0) = [a, b, c] ∧
        (∃ mv : ℕ, pyInt b = some (mv : ℤ) ∧ mv < 60) ∧
        (∃ sv : ℕ, pyInt c = some (sv : ℤ) ∧ sv < 60)) ∧
      parse_timestamp (seconds_to_timestamp 0) = some ⌊(0 : ℝ)⌋) :=
  ⟨le_rfl, C9_timestamp_round_trip 0 le_rfl⟩

/-- C10: in every detected dict built from nonnegative absolute times,
the integer fields equal the floor of the real-valued start and end
times (Python's `int(...)` truncates toward zero, which is the floor on
nonnegative values), and each timestamp string field parses back to the
same whole second. -/
theorem C10_detected_integer_fields (a e conf : ℝ) (ha : 0 ≤ a)
    (he : 0 ≤ e) :
    mkDetected a e conf =
      DetectResult.detected (seconds_to_timestamp a) ⌊a⌋
        (seconds_to_timestamp e) ⌊e⌋ conf ∧
    parse_timestamp (seconds_to_timestamp a) = some ⌊a⌋ ∧
    parse_timestamp (seconds_to_timestamp e) = some ⌊e⌋ := by
  refine ⟨?_, parse_seconds_to_timestamp a ha, parse_seconds_to_timestamp e he⟩
  unfold mkDetected
  rw [pyIntR_nonneg ha, pyIntR_nonneg he]

theorem C10_witness :
    (0 : ℝ) ≤ 0 ∧
      (mkDetected 0 0 1 =
        DetectResult.detected (seconds_to_timestamp 0) ⌊(0 : ℝ)⌋
          (seconds_to_timestamp 0) ⌊(0 : ℝ)⌋ 1 ∧
      parse_timestamp (seconds_to_timestamp 0) = some ⌊(0 : ℝ)⌋ ∧
      parse_timestamp (seconds_to_timestamp 0) = some ⌊(0 : ℝ)⌋) :=
  ⟨le_rfl, C10_detected_integer_fields 0 0 1 le_rfl le_rfl⟩

end NacMedia

